import Mathlib

/-!
Shallow embedding of the theme provider in `src/src/index.tsx`
(@tarxemo/react-theme).

The provider tracks a selected theme mode (`theme`), the observed OS
appearance (`systemTheme`), derives an effective appearance, and runs a
synchronization effect that mutates the document root's class list and
persists the selected mode to storage.

Modelling choices:
- Theme values are `String`s, because the TypeScript code casts the raw
  `localStorage.getItem` result to `Theme` without validating it, so
  arbitrary strings can flow through the state.
- The document root's class list is a `List String` with `classList.add`
  and `classList.remove` semantics (`add` is idempotent, `remove` deletes
  all occurrences).
- The synchronization effect is embedded as the list of DOM/storage
  operations it performs, in order, so ordering claims (marker class added
  before other mutations, repaint before removal) are statable.
- Browser availability (`typeof window !== 'undefined'`) is a boolean
  parameter `isBrowser`.
-/

namespace ReactTheme

/-- Configuration record, already merged over the defaults as in
`finalConfig` (`{ lightClass: 'light', ..., ...config }`). -/
structure ThemeConfig where
  lightClass : String := "light"
  darkClass : String := "dark"
  systemClass : String := "system"
  storageKey : String := "theme"
  disableTransition : Bool := false
  followSystemTheme : Bool := true
deriving Repr, DecidableEq

/-- Caller-supplied configuration overrides (all fields optional). -/
structure ThemeConfigOverride where
  lightClass : Option String := none
  darkClass : Option String := none
  systemClass : Option String := none
  storageKey : Option String := none
  disableTransition : Option Bool := none
  followSystemTheme : Option Bool := none
deriving Repr, DecidableEq

/-- Shallow merge of the defaults with caller overrides, as in
`finalConfig = { lightClass: 'light', darkClass: 'dark', systemClass: 'system',
storageKey: 'theme', disableTransition: false, followSystemTheme: true, ...config }`. -/
def mergeConfig (o : ThemeConfigOverride) : ThemeConfig :=
  { lightClass := o.lightClass.getD "light"
    darkClass := o.darkClass.getD "dark"
    systemClass := o.systemClass.getD "system"
    storageKey := o.storageKey.getD "theme"
    disableTransition := o.disableTransition.getD false
    followSystemTheme := o.followSystemTheme.getD true }

/-- In-memory provider state: the two `useState` cells. -/
structure ProviderState where
  theme : String
  systemTheme : String
deriving Repr, DecidableEq

/-- Embedding of the `useState` initializer for `theme`:
`if (typeof window !== 'undefined') { const stored = localStorage.getItem(key) as Theme;
return stored || defaultTheme; } return defaultTheme;`.
`localStorage.getItem` returns `null` for a missing key; `stored || defaultTheme`
falls back to the default exactly when `stored` is falsy (null or the empty
string). No validation against the Mode enumeration is performed. -/
def initTheme (isBrowser : Bool) (storage : String → Option String)
    (storageKey defaultTheme : String) : String :=
  if isBrowser then
    match storage storageKey with
    | some s => if s = "" then defaultTheme else s
    | none => defaultTheme
  else defaultTheme

/-- Embedding of `effectiveTheme = theme === 'system' ? systemTheme : theme`. -/
def effectiveTheme (st : ProviderState) : String :=
  if st.theme = "system" then st.systemTheme else st.theme

/-- Embedding of `toggleTheme`: `if (t === 'light') return 'dark';
if (t === 'dark') return 'system'; return 'light';`. -/
def toggleTheme (t : String) : String :=
  if t = "light" then "dark"
  else if t = "dark" then "system"
  else "light"

/-- Whether the OS-observer effect registers a media-query listener:
it early-returns outside the browser and only subscribes when
`finalConfig.followSystemTheme` is set. -/
def observerRegisters (isBrowser : Bool) (cfg : ThemeConfig) : Bool :=
  isBrowser && cfg.followSystemTheme

/-- The string stored by `setSystemTheme(matches ? 'dark' : 'light')`. -/
def osAppearance (dark : Bool) : String :=
  if dark then "dark" else "light"

/-- Discrete events that mutate the provider state. -/
inductive Event where
  | setMode (m : String)
  | toggleMode
  | osChange (dark : Bool)
deriving Repr, DecidableEq

/-- One state transition. `setTheme` replaces the mode unconditionally;
`toggleTheme` applies the 3-cycle to the current mode; a media-query
change event updates `systemTheme` only when the observer effect actually
registered a listener (browser context and `followSystemTheme` enabled). -/
def step (cfg : ThemeConfig) (isBrowser : Bool) (st : ProviderState) :
    Event → ProviderState
  | Event.setMode m => { st with theme := m }
  | Event.toggleMode => { st with theme := toggleTheme st.theme }
  | Event.osChange d =>
      if observerRegisters isBrowser cfg then
        { st with systemTheme := osAppearance d }
      else st

/-- Run a sequence of events from a state. -/
def runEvents (cfg : ThemeConfig) (isBrowser : Bool)
    (st : ProviderState) : List Event → ProviderState
  | [] => st
  | e :: es => runEvents cfg isBrowser (step cfg isBrowser st e) es

/-- State right after mount: the `useState` cells are seeded
(`theme` from the initializer, `systemTheme` from `useState('light')`),
then the OS-observer effect, when it registers, synchronously queries the
media query and sets `systemTheme` from the current OS preference. -/
def mountState (isBrowser : Bool) (cfg : ThemeConfig)
    (storage : String → Option String) (defaultTheme : String)
    (osDark : Bool) : ProviderState :=
  let st : ProviderState :=
    { theme := initTheme isBrowser storage cfg.storageKey defaultTheme
      systemTheme := "light" }
  if observerRegisters isBrowser cfg then
    { st with systemTheme := osAppearance osDark }
  else st

/-- Reachable state of the provider: mount followed by any sequence of
events. -/
def reachState (isBrowser : Bool) (cfg : ThemeConfig)
    (storage : String → Option String) (defaultTheme : String)
    (osDark : Bool) (es : List Event) : ProviderState :=
  runEvents cfg isBrowser (mountState isBrowser cfg storage defaultTheme osDark) es

/-- One observable operation of the synchronization effect. -/
inductive DomOp where
  | addClass (s : String)
  | removeClass (s : String)
  | setStorage (key value : String)
  | forceRepaint
deriving Repr, DecidableEq

/-- The operations performed by one run of the synchronization
`useEffect` body (browser case), in source order:
optional `classList.add('no-transitions')`; removal of the three
configured classes; addition of one class chosen by `effectiveTheme`
(dark-class, else light-class, else system-class);
`localStorage.setItem(storageKey, theme)`; and, when transitions are
disabled, the forced repaint followed by removal of `'no-transitions'`. -/
def syncOps (cfg : ThemeConfig) (st : ProviderState) : List DomOp :=
  (if cfg.disableTransition then [DomOp.addClass "no-transitions"] else [])
  ++ [DomOp.removeClass cfg.lightClass,
      DomOp.removeClass cfg.darkClass,
      DomOp.removeClass cfg.systemClass]
  ++ [if effectiveTheme st = "dark" then DomOp.addClass cfg.darkClass
      else if effectiveTheme st = "light" then DomOp.addClass cfg.lightClass
      else DomOp.addClass cfg.systemClass]
  ++ [DomOp.setStorage cfg.storageKey st.theme]
  ++ (if cfg.disableTransition then [DomOp.forceRepaint, DomOp.removeClass "no-transitions"]
      else [])

/-- The synchronization effect including its guard:
`if (typeof window === 'undefined') return;`. -/
def syncEffectOps (isBrowser : Bool) (cfg : ThemeConfig)
    (st : ProviderState) : List DomOp :=
  if isBrowser then syncOps cfg st else []

/-- Model of `classList.add`: appends unless already present. -/
def classAdd (l : List String) (s : String) : List String :=
  if s ∈ l then l else l ++ [s]

/-- Model of `classList.remove`: removes every occurrence. -/
def classRemove (l : List String) (s : String) : List String :=
  l.filter (fun x => x ≠ s)

/-- Effect of one operation on the root's class list. -/
def applyOp (root : List String) : DomOp → List String
  | DomOp.addClass s => classAdd root s
  | DomOp.removeClass s => classRemove root s
  | DomOp.setStorage _ _ => root
  | DomOp.forceRepaint => root

/-- Effect of a sequence of operations on the root's class list. -/
def applyOps (root : List String) (ops : List DomOp) : List String :=
  ops.foldl applyOp root

/-- The key/value pairs written to storage by a sequence of operations. -/
def storedWrites (ops : List DomOp) : List (String × String) :=
  ops.filterMap (fun op =>
    match op with
    | DomOp.setStorage k v => some (k, v)
    | _ => none)

/-- The valid Mode literals of `type Theme = 'light' | 'dark' | 'system'`. -/
def validMode (t : String) : Prop :=
  t = "light" ∨ t = "dark" ∨ t = "system"

instance (t : String) : Decidable (validMode t) := by
  unfold validMode; infer_instance

/-- The context value exposed to consumers (data fields of
`ThemeContextType`; the mutators are the global transition functions). -/
structure ThemeContextType where
  theme : String
  systemTheme : String
  effectiveThemeVal : String
  config : ThemeConfig
deriving Repr, DecidableEq

/-- The memoized context value built by the provider. -/
def contextValue (cfg : ThemeConfig) (st : ProviderState) : ThemeContextType :=
  { theme := st.theme
    systemTheme := st.systemTheme
    effectiveThemeVal := effectiveTheme st
    config := cfg }

/-- Embedding of `useTheme`: reads the context; `if (!ctx) throw new Error(...)`;
returns the context object otherwise. The throw is embedded as `Except.error`. -/
def useTheme (ctx : Option ThemeContextType) : Except String ThemeContextType :=
  match ctx with
  | none => Except.error "useTheme must be used within ThemeProvider"
  | some c => Except.ok c

/-- Default configuration (no overrides supplied). -/
def defaultConfig : ThemeConfig := {}

/-- A storage state holding the invalid string "purple" under the default key. -/
def badStorage : String → Option String :=
  fun k => if k = "theme" then some "purple" else none

/-- Configuration with the OS observer disabled. -/
def noFollowConfig : ThemeConfig := { followSystemTheme := false }

/-- Configuration with transition suppression enabled. -/
def suppressConfig : ThemeConfig := { disableTransition := true }

/-! ## General lemmas about the embedding -/

theorem mem_classAdd (l : List String) (s a : String) :
    a ∈ classAdd l s ↔ a ∈ l ∨ a = s := by
  unfold classAdd
  split
  · constructor
    · exact Or.inl
    · rintro (h | rfl)
      · exact h
      · assumption
  · simp [List.mem_append]

theorem mem_classRemove (l : List String) (s a : String) :
    a ∈ classRemove l s ↔ a ∈ l ∧ a ≠ s := by
  unfold classRemove
  simp [List.mem_filter]

theorem not_mem_applyOps_remove_last (root : List String) (ops : List DomOp)
    (a : String) : a ∉ applyOps root (ops ++ [DomOp.removeClass a]) := by
  simp [applyOps, List.foldl_append, applyOp, mem_classRemove]

theorem storedWrites_syncOps (cfg : ThemeConfig) (st : ProviderState) :
    storedWrites (syncOps cfg st) = [(cfg.storageKey, st.theme)] := by
  unfold syncOps storedWrites
  cases hdt : cfg.disableTransition <;> (repeat' split) <;> simp_all

theorem systemTheme_valid_step (cfg : ThemeConfig) (b : Bool)
    (st : ProviderState) (e : Event)
    (h : st.systemTheme = "light" ∨ st.systemTheme = "dark") :
    (step cfg b st e).systemTheme = "light" ∨
      (step cfg b st e).systemTheme = "dark" := by
  cases e with
  | setMode m => exact h
  | toggleMode => exact h
  | osChange d =>
      simp only [step]
      split
      · cases d <;> simp [osAppearance]
      · exact h

theorem systemTheme_valid_run (cfg : ThemeConfig) (b : Bool)
    (es : List Event) (st : ProviderState)
    (h : st.systemTheme = "light" ∨ st.systemTheme = "dark") :
    (runEvents cfg b st es).systemTheme = "light" ∨
      (runEvents cfg b st es).systemTheme = "dark" := by
  induction es generalizing st with
  | nil => exact h
  | cons e es ih => exact ih _ (systemTheme_valid_step cfg b st e h)

theorem systemTheme_valid_mount (b : Bool) (cfg : ThemeConfig)
    (storage : String → Option String) (dflt : String) (osDark : Bool) :
    (mountState b cfg storage dflt osDark).systemTheme = "light" ∨
      (mountState b cfg storage dflt osDark).systemTheme = "dark" := by
  unfold mountState
  split
  · cases osDark <;> simp [osAppearance]
  · simp

theorem effective_valid (st : ProviderState)
    (hval : validMode st.theme)
    (hsys : st.systemTheme = "light" ∨ st.systemTheme = "dark") :
    effectiveTheme st = "light" ∨ effectiveTheme st = "dark" := by
  unfold effectiveTheme
  rcases hval with h | h | h <;> simp [h]
  exact hsys

theorem exactlyOne_aux (cfg : ThemeConfig) (st : ProviderState) (root : List String)
    (heff : effectiveTheme st = "light" ∨ effectiveTheme st = "dark")
    (h1 : cfg.lightClass ≠ cfg.darkClass)
    (h2 : cfg.systemClass ≠ cfg.lightClass)
    (h3 : cfg.systemClass ≠ cfg.darkClass)
    (h4 : cfg.lightClass ≠ "no-transitions")
    (h5 : cfg.darkClass ≠ "no-transitions") :
    ((cfg.lightClass ∈ applyOps root (syncOps cfg st) ∧
      cfg.darkClass ∉ applyOps root (syncOps cfg st)) ∨
     (cfg.darkClass ∈ applyOps root (syncOps cfg st) ∧
      cfg.lightClass ∉ applyOps root (syncOps cfg st))) ∧
    cfg.systemClass ∉ applyOps root (syncOps cfg st) := by
  rcases heff with heff | heff <;> cases hdt : cfg.disableTransition <;>
    simp [syncOps, hdt, heff, applyOps, applyOp, List.foldl, mem_classAdd,
      mem_classRemove, h1, h2, h3, h4, h5, Ne.symm h1, Ne.symm h2, Ne.symm h3]

theorem systemTheme_frozen_step (cfg : ThemeConfig) (b : Bool)
    (st : ProviderState) (e : Event) (hf : cfg.followSystemTheme = false) :
    (step cfg b st e).systemTheme = st.systemTheme := by
  cases e with
  | setMode m => rfl
  | toggleMode => rfl
  | osChange d => simp [step, observerRegisters, hf]

theorem systemTheme_frozen_run (cfg : ThemeConfig) (b : Bool)
    (es : List Event) (st : ProviderState) (hf : cfg.followSystemTheme = false) :
    (runEvents cfg b st es).systemTheme = st.systemTheme := by
  induction es generalizing st with
  | nil => rfl
  | cons e es ih =>
      exact (ih _).trans (systemTheme_frozen_step cfg b st e hf)

theorem mount_frozen (b : Bool) (cfg : ThemeConfig)
    (storage : String → Option String) (dflt : String) (osDark : Bool)
    (hf : cfg.followSystemTheme = false) :
    (mountState b cfg storage dflt osDark).systemTheme = "light" := by
  simp [mountState, observerRegisters, hf]

/-! ## Claim theorems -/

/-- Claim C1, counterexample: at initialization in a browser context with
the invalid string "purple" stored under the configured key and the
caller-supplied default "light", the initializer returns "purple" — an
invalid, non-default value — so the claim that every invalid stored value
falls back to the default is false on the code. -/
theorem c1_counterexample :
    initTheme true badStorage "theme" "light" = "purple" ∧
    ¬ validMode "purple" ∧ "purple" ≠ "light" := by
  decide

/-- Claim C1, amended: at provider initialization in a browser context the
stored value is used as the initial selectedMode whenever it is present
and non-empty, with no validation against the Mode enumeration; the
caller-supplied default is used exactly when the stored value is absent
or the empty string. -/
theorem c1_init_seed_amended (storage : String → Option String)
    (key dflt : String) :
    (storage key = none → initTheme true storage key dflt = dflt) ∧
    (storage key = some "" → initTheme true storage key dflt = dflt) ∧
    (∀ s, storage key = some s → s ≠ "" →
      initTheme true storage key dflt = s) := by
  unfold initTheme
  refine ⟨fun h => by simp [h], fun h => by simp [h], fun s h hs => by simp [h, hs]⟩

/-- Claim C1, witness: a pre-existing stored value "dark" under a custom
storage key with a different caller-supplied default "light" seeds the
mode as "dark". -/
theorem c1_init_seed_amended_witness :
    initTheme true (fun _ => some "dark") "my-theme" "light" = "dark" :=
  (c1_init_seed_amended (fun _ => some "dark") "my-theme" "light").2.2 "dark" rfl
    (by decide)

/-- Claim C2, counterexample: with the invalid string "purple" stored under
the default key, the mounted state is reachable, its synchronization
effect applies the configured system-class as a live marker, and neither
the light-class nor the dark-class is present afterwards — refuting both
the exactly-one part and the system-class-never-present part. -/
theorem c2_counterexample :
    reachState true defaultConfig badStorage "light" false [] =
      { theme := "purple", systemTheme := "light" } ∧
    defaultConfig.systemClass ∈
      applyOps [] (syncOps defaultConfig (reachState true defaultConfig badStorage "light" false [])) ∧
    defaultConfig.lightClass ∉
      applyOps [] (syncOps defaultConfig (reachState true defaultConfig badStorage "light" false [])) ∧
    defaultConfig.darkClass ∉
      applyOps [] (syncOps defaultConfig (reachState true defaultConfig badStorage "light" false [])) := by
  decide

/-- Claim C2, amended: after every run of the synchronization effect from
a reachable state whose selectedMode is a valid Mode literal, and with
class names that do not clash (light/dark/system pairwise distinct and
light/dark distinct from the internal "no-transitions" marker), exactly
one of the configured light-class and dark-class is present on the
document root and the configured system-class is not present. -/
theorem c2_exactly_one_marker_amended (cfg : ThemeConfig) (b : Bool)
    (storage : String → Option String) (dflt : String) (osDark : Bool)
    (es : List Event) (root : List String)
    (hval : validMode (reachState b cfg storage dflt osDark es).theme)
    (h1 : cfg.lightClass ≠ cfg.darkClass)
    (h2 : cfg.systemClass ≠ cfg.lightClass)
    (h3 : cfg.systemClass ≠ cfg.darkClass)
    (h4 : cfg.lightClass ≠ "no-transitions")
    (h5 : cfg.darkClass ≠ "no-transitions") :
    ((cfg.lightClass ∈ applyOps root (syncOps cfg (reachState b cfg storage dflt osDark es)) ∧
      cfg.darkClass ∉ applyOps root (syncOps cfg (reachState b cfg storage dflt osDark es))) ∨
     (cfg.darkClass ∈ applyOps root (syncOps cfg (reachState b cfg storage dflt osDark es)) ∧
      cfg.lightClass ∉ applyOps root (syncOps cfg (reachState b cfg storage dflt osDark es)))) ∧
    cfg.systemClass ∉ applyOps root (syncOps cfg (reachState b cfg storage dflt osDark es)) := by
  have hsys := systemTheme_valid_run cfg b es
    (mountState b cfg storage dflt osDark)
    (systemTheme_valid_mount b cfg storage dflt osDark)
  exact exactlyOne_aux cfg _ root (effective_valid _ hval hsys) h1 h2 h3 h4 h5

/-- Claim C2, witness: freshly mounted default configuration with empty
storage and default mode "light" — exactly the light-class ends up on an
initially empty root. -/
theorem c2_exactly_one_marker_amended_witness :
    ((defaultConfig.lightClass ∈
        applyOps [] (syncOps defaultConfig (reachState true defaultConfig (fun _ => none) "light" false [])) ∧
      defaultConfig.darkClass ∉
        applyOps [] (syncOps defaultConfig (reachState true defaultConfig (fun _ => none) "light" false []))) ∨
     (defaultConfig.darkClass ∈
        applyOps [] (syncOps defaultConfig (reachState true defaultConfig (fun _ => none) "light" false [])) ∧
      defaultConfig.lightClass ∉
        applyOps [] (syncOps defaultConfig (reachState true defaultConfig (fun _ => none) "light" false [])))) ∧
    defaultConfig.systemClass ∉
      applyOps [] (syncOps defaultConfig (reachState true defaultConfig (fun _ => none) "light" false [])) :=
  c2_exactly_one_marker_amended defaultConfig true (fun _ => none) "light" false [] []
    (by decide) (by decide) (by decide) (by decide) (by decide) (by decide)

/-- Claim C3: for every initial condition and sequence of events
(setMode calls, toggles, OS-observer updates), the effective appearance
exposed through the consumer context equals the observed OS appearance
when the selected mode is "system", and equals the selected mode itself
otherwise. -/
theorem c3_effective_derivation (cfg : ThemeConfig) (b : Bool)
    (storage : String → Option String) (dflt : String) (osDark : Bool)
    (es : List Event) :
    ((reachState b cfg storage dflt osDark es).theme = "system" →
      (contextValue cfg (reachState b cfg storage dflt osDark es)).effectiveThemeVal =
        (reachState b cfg storage dflt osDark es).systemTheme) ∧
    ((reachState b cfg storage dflt osDark es).theme ≠ "system" →
      (contextValue cfg (reachState b cfg storage dflt osDark es)).effectiveThemeVal =
        (reachState b cfg storage dflt osDark es).theme) := by
  unfold contextValue effectiveTheme
  constructor
  · intro h; simp [h]
  · intro h; simp [h]

/-- Claim C3, witness: after `setMode "system"` the exposed effective
appearance equals the observed OS appearance. -/
theorem c3_effective_derivation_witness :
    (contextValue defaultConfig (reachState true defaultConfig (fun _ => none)
      "light" true [Event.setMode "system"])).effectiveThemeVal =
    (reachState true defaultConfig (fun _ => none)
      "light" true [Event.setMode "system"]).systemTheme :=
  (c3_effective_derivation defaultConfig true (fun _ => none) "light" true
    [Event.setMode "system"]).1 (by decide)

/-- Claim C4: toggleTheme is the fixed 3-cycle light → dark → system →
light; three applications return any valid Mode to itself; and the
toggle step depends only on the current selected mode, not on the
observed OS appearance (two states agreeing on the mode toggle to the
same mode). -/
theorem c4_toggle_cycle (cfg : ThemeConfig) (b : Bool) (s1 s2 : ProviderState)
    (hval : validMode s1.theme) (hsame : s1.theme = s2.theme) :
    toggleTheme "light" = "dark" ∧ toggleTheme "dark" = "system" ∧
    toggleTheme "system" = "light" ∧
    toggleTheme (toggleTheme (toggleTheme s1.theme)) = s1.theme ∧
    (step cfg b s1 Event.toggleMode).theme = (step cfg b s2 Event.toggleMode).theme := by
  refine ⟨by decide, by decide, by decide, ?_, ?_⟩
  · rcases hval with h | h | h <;> rw [h] <;> decide
  · simp [step, hsame]

/-- Claim C4, witness: the cycle closes from "system" even when the two
states disagree on the observed OS appearance. -/
theorem c4_toggle_cycle_witness :
    toggleTheme (toggleTheme (toggleTheme "system")) = "system" :=
  (c4_toggle_cycle defaultConfig true { theme := "system", systemTheme := "light" }
    { theme := "system", systemTheme := "dark" } (by decide) rfl).2.2.2.1

/-- Claim C5: when transition suppression is enabled, the effect's first
operation adds "no-transitions" (before any other class mutation), its
trace ends with a forced repaint followed by removal of "no-transitions",
and "no-transitions" is absent from the root after the effect completes;
when suppression is disabled the effect never adds "no-transitions"
(given the configured class names differ from the marker). -/
theorem c5_transition_suppression (cfg : ThemeConfig) (st : ProviderState)
    (root : List String)
    (h4 : cfg.lightClass ≠ "no-transitions")
    (h5 : cfg.darkClass ≠ "no-transitions")
    (h6 : cfg.systemClass ≠ "no-transitions") :
    (cfg.disableTransition = true →
      (syncOps cfg st).head? = some (DomOp.addClass "no-transitions") ∧
      (∃ ops, syncOps cfg st =
        ops ++ [DomOp.forceRepaint, DomOp.removeClass "no-transitions"]) ∧
      "no-transitions" ∉ applyOps root (syncOps cfg st)) ∧
    (cfg.disableTransition = false →
      ∀ op ∈ syncOps cfg st, op ≠ DomOp.addClass "no-transitions") := by
  constructor
  · intro hdt
    refine ⟨by simp [syncOps, hdt], ?_, ?_⟩
    · exact ⟨[DomOp.addClass "no-transitions", DomOp.removeClass cfg.lightClass,
        DomOp.removeClass cfg.darkClass, DomOp.removeClass cfg.systemClass,
        (if effectiveTheme st = "dark" then DomOp.addClass cfg.darkClass
         else if effectiveTheme st = "light" then DomOp.addClass cfg.lightClass
         else DomOp.addClass cfg.systemClass),
        DomOp.setStorage cfg.storageKey st.theme], by simp [syncOps, hdt]⟩
    · have hx : syncOps cfg st =
          ([DomOp.addClass "no-transitions", DomOp.removeClass cfg.lightClass,
            DomOp.removeClass cfg.darkClass, DomOp.removeClass cfg.systemClass,
            (if effectiveTheme st = "dark" then DomOp.addClass cfg.darkClass
             else if effectiveTheme st = "light" then DomOp.addClass cfg.lightClass
             else DomOp.addClass cfg.systemClass),
            DomOp.setStorage cfg.storageKey st.theme, DomOp.forceRepaint]) ++
          [DomOp.removeClass "no-transitions"] := by
        simp [syncOps, hdt]
      rw [hx]
      exact not_mem_applyOps_remove_last root _ _
  · intro hdt op hop
    simp [syncOps, hdt] at hop
    rcases hop with rfl | rfl | rfl | hop | rfl
    · simp
    · simp
    · simp
    · split at hop <;> (subst hop; (try split) <;> simp [h4, h5, h6])
    · simp

/-- Claim C5, witness: with suppression enabled, "no-transitions" is gone
from the root once the effect has run. -/
theorem c5_transition_suppression_witness :
    ("no-transitions" : String) ∉
      applyOps [] (syncOps suppressConfig { theme := "light", systemTheme := "light" }) :=
  ((c5_transition_suppression suppressConfig
    { theme := "light", systemTheme := "light" } []
    (by decide) (by decide) (by decide)).1 rfl).2.2

/-- Claim C6: with followSystemTheme disabled, the observed OS appearance
stays at its default "light" in every reachable state, any simulated OS
flip leaves the state (hence the effective appearance) unchanged, and a
selected mode of "system" resolves to "light". -/
theorem c6_follow_disabled_frozen (cfg : ThemeConfig) (b : Bool)
    (storage : String → Option String) (dflt : String) (osDark : Bool)
    (es : List Event) (hf : cfg.followSystemTheme = false) :
    (reachState b cfg storage dflt osDark es).systemTheme = "light" ∧
    (∀ d, step cfg b (reachState b cfg storage dflt osDark es) (Event.osChange d) =
      reachState b cfg storage dflt osDark es) ∧
    ((reachState b cfg storage dflt osDark es).theme = "system" →
      effectiveTheme (reachState b cfg storage dflt osDark es) = "light") := by
  have hsys : (reachState b cfg storage dflt osDark es).systemTheme = "light" :=
    (systemTheme_frozen_run cfg b es _ hf).trans
      (mount_frozen b cfg storage dflt osDark hf)
  refine ⟨hsys, fun d => ?_, fun h => ?_⟩
  · simp [step, observerRegisters, hf]
  · unfold effectiveTheme
    simp [h, hsys]

/-- Claim C6, witness: observer disabled, OS reporting dark and a dark
flip event delivered — mode "system" still resolves to "light". -/
theorem c6_follow_disabled_frozen_witness :
    effectiveTheme (reachState true noFollowConfig (fun _ => none) "system" true
      [Event.osChange true]) = "light" :=
  (c6_follow_disabled_frozen noFollowConfig true (fun _ => none) "system" true
    [Event.osChange true] rfl).2.2 (by decide)

/-- Claim C7: after any `setMode m`, the synchronization effect writes
exactly the pair (configured storage key, m) to storage — the selected
mode itself, never the resolved effective appearance. -/
theorem c7_persist_selected_mode (cfg : ThemeConfig) (b : Bool)
    (st : ProviderState) (m : String) :
    storedWrites (syncOps cfg (step cfg b st (Event.setMode m))) =
      [(cfg.storageKey, m)] :=
  storedWrites_syncOps cfg _

/-- Claim C8: in a non-browser context the initializer skips the storage
read and returns the caller-supplied default, the mounted state carries
the default mode and the default OS appearance, the OS observer does not
register, the synchronization effect performs no operations, and OS
change events leave the state unchanged; all paths are total functions
(nothing throws). -/
theorem c8_non_browser_noop (cfg : ThemeConfig)
    (storage : String → Option String) (dflt : String) (osDark : Bool)
    (st : ProviderState) :
    initTheme false storage cfg.storageKey dflt = dflt ∧
    (mountState false cfg storage dflt osDark).theme = dflt ∧
    (mountState false cfg storage dflt osDark).systemTheme = "light" ∧
    observerRegisters false cfg = false ∧
    syncEffectOps false cfg st = [] ∧
    ∀ d, step cfg false st (Event.osChange d) = st := by
  refine ⟨rfl, rfl, rfl, rfl, rfl, fun d => ?_⟩
  simp [step, observerRegisters]

/-- Claim C9: retrieving the consumer interface outside an active provider
scope fails with the descriptive error "useTheme must be used within
ThemeProvider"; within a provider scope it returns the context object
unchanged. -/
theorem c9_useTheme_outside_provider :
    useTheme none = Except.error "useTheme must be used within ThemeProvider" ∧
    ∀ c, useTheme (some c) = Except.ok c :=
  ⟨rfl, fun _ => rfl⟩

/-- Claim C10: toggleTheme maps every current value other than "light" and
"dark" — including "system" and invalid strings — to "light"; it is a
total function, so it never throws. -/
theorem c10_toggle_fallback (t : String) (h1 : t ≠ "light") (h2 : t ≠ "dark") :
    toggleTheme t = "light" := by
  unfold toggleTheme
  simp [h1, h2]

/-- Claim C10, witness: the invalid leaked string "purple" toggles to
"light". -/
theorem c10_toggle_fallback_witness : toggleTheme "purple" = "light" :=
  c10_toggle_fallback "purple" (by decide) (by decide)

end ReactTheme
